import Mathlib

/-!
Verification of the device-registry ping service in src/app.py.

The development shallowly embeds the data model and the operations of the
program: the storage records, the prober `ping_host`, the concurrent
coordinator `bulk_status`, and the HTTP mutation handlers `add_device` and
`delete_device`.  External effects are made explicit parameters: the
subprocess invocation of `ping_host` becomes a function from the command
list to an outcome, the per-task probe outcome in `bulk_status` becomes a
function from the address to an exceptional or boolean result, and the
nondeterministic completion order of the thread pool becomes an explicit
arrival list quantified over all permutations of the device list.

Python string primitives are modelled executably: `pyLower` for
`str.lower`, `pyStrip` for `str.strip`, and `charsLe` and `charsLt` for the
lexicographic code-point comparison Python applies to strings and to the
sort-key tuples.
-/

/-- Device record stored in devices.json: an id, a display name and an ip,
all strings. -/
structure Device where
  id : String
  name : String
  ip : String
deriving DecidableEq, Repr

/-- One row of the report built by `bulk_status`: the id, name and ip of the
device together with the boolean online flag. -/
structure ProbeResult where
  id : String
  name : String
  ip : String
  online : Bool
deriving DecidableEq, Repr

/-- Model of the Python string method `lower`: lowercase every character. -/
def pyLower (s : String) : String :=
  ⟨s.data.map Char.toLower⟩

/-- Helper for `pyStrip`: drop whitespace from both ends of a character
list. -/
def stripChars (l : List Char) : List Char :=
  ((l.dropWhile Char.isWhitespace).reverse.dropWhile Char.isWhitespace).reverse

/-- Model of the Python string method `strip` with no argument: remove
leading and trailing whitespace. -/
def pyStrip (s : String) : String :=
  ⟨stripChars s.data⟩

/-- Model of the Python comparison `s1 <= s2` on strings: lexicographic on
code points. -/
def charsLe : List Char → List Char → Bool
  | [], _ => true
  | _ :: _, [] => false
  | a :: as, b :: bs =>
    if a < b then true else if b < a then false else charsLe as bs

/-- Model of the Python comparison `s1 < s2` on strings: lexicographic on
code points, strict. -/
def charsLt : List Char → List Char → Bool
  | [], [] => false
  | [], _ :: _ => true
  | _ :: _, [] => false
  | a :: as, b :: bs =>
    if a < b then true else if b < a then false else charsLt as bs

/-- Outcome of the subprocess.run call inside `ping_host`: either a completed
process carrying its return code, or a raised exception (tool missing,
invocation error, and so on). -/
inductive ExecOutcome where
  | ok (returncode : Int)
  | raised
deriving DecidableEq, Repr

/-- Python round of `ms / 1000` to the nearest integer, halves to even, as
computed by `int(round(timeout_ms / 1000))` on line 46 of src/app.py.  For
the integer arguments in range the float division is exact at every tie
point, so the integer computation below agrees with the float one. -/
def pyRound1000 (ms : Nat) : Nat :=
  if ms % 1000 < 500 then ms / 1000
  else if 500 < ms % 1000 then ms / 1000 + 1
  else if ms / 1000 % 2 = 0 then ms / 1000 else ms / 1000 + 1

/-- Whole seconds handed to `ping -W` on non-Windows platforms:
`secs = max(1, int(round(timeout_ms / 1000)))` (line 46 of src/app.py). -/
def pingWaitSecs (timeout_ms : Nat) : Nat :=
  max 1 (pyRound1000 timeout_ms)

/-- Command list built by `ping_host` (lines 40 to 47 of src/app.py),
depending on the lowercased platform name. -/
def ping_cmd (sysname : String) (timeout_ms : Nat) (ip : String) : List String :=
  if sysname = "windows" then
    ["ping", "-n", "1", "-w", toString timeout_ms, ip]
  else
    ["ping", "-c", "1", "-W", toString (pingWaitSecs timeout_ms), ip]

/-- The prober `ping_host` (lines 33 to 56 of src/app.py).  The whole body is
wrapped in try/except returning False, so a raised subprocess outcome
collapses to `false`; a completed process yields `returncode == 0`. -/
def ping_host (sysname : String) (ip : String) (timeout_ms : Nat)
    (run : List String → ExecOutcome) : Bool :=
  match run (ping_cmd sysname timeout_ms ip) with
  | .ok rc => rc == 0
  | .raised => false

/-- Online flag recovered from one worker task in `bulk_status`
(lines 69 to 73 of src/app.py): `fut.result()` inside try/except, any
exception downgraded to `false`.  The task outcome is a function from the
probed address to either a boolean or an exception. -/
def taskOnline (probe : String → Except Unit Bool) (d : Device) : Bool :=
  match probe d.ip with
  | .ok b => b
  | .error _ => false

/-- The result dictionary appended for one device
(lines 74 to 79 of src/app.py). -/
def mkResult (probe : String → Except Unit Bool) (d : Device) : ProbeResult :=
  { id := d.id, name := d.name, ip := d.ip, online := taskOnline probe d }

/-- Sort key used on line 81 of src/app.py: the lowercased name paired with
the ip, both as character lists. -/
def sortKey (r : ProbeResult) : List Char × List Char :=
  (r.name.data.map Char.toLower, r.ip.data)

/-- Boolean comparison realizing the Python tuple order on `sortKey`:
lexicographic, lowercased name first, then ip. -/
def keyLE (a b : ProbeResult) : Bool :=
  charsLt (sortKey a).1 (sortKey b).1
    || ((sortKey a).1 == (sortKey b).1 && charsLe (sortKey a).2 (sortKey b).2)

/-- Propositional form of `keyLE`: the report order, non-strict. -/
def keyLEP (a b : ProbeResult) : Prop :=
  charsLt (sortKey a).1 (sortKey b).1 = true
    ∨ ((sortKey a).1 = (sortKey b).1 ∧ charsLe (sortKey a).2 (sortKey b).2 = true)

/-- Strict version of the report order, used to state uniqueness of the
sorted report when the sort keys are pairwise distinct. -/
def keyLT (a b : ProbeResult) : Prop :=
  charsLt (sortKey a).1 (sortKey b).1 = true
    ∨ ((sortKey a).1 = (sortKey b).1 ∧ charsLt (sortKey a).2 (sortKey b).2 = true)

/-- Worker-pool width of `bulk_status`:
`max_workers = min(64, max(4, len(devices)))` (line 65 of src/app.py). -/
def pool_width (devices : List Device) : Nat :=
  min 64 (max 4 devices.length)

/-- Observable trace of one `bulk_status` round: whether the
ThreadPoolExecutor was constructed, its `max_workers` value, the addresses
submitted to `ping_host` in submission order, the results in completion
order, and the final sorted report. -/
structure RoundTrace where
  poolCreated : Bool
  max_workers : Nat
  probeCalls : List String
  collected : List ProbeResult
  report : List ProbeResult
deriving DecidableEq, Repr

/-- The coordinator `bulk_status` (lines 59 to 82 of src/app.py).  The
`with ThreadPoolExecutor(...)` block is entered unconditionally, one task is
submitted per device in list order, results are appended in completion order
(`as_completed`), and the accumulated list is sorted once at the end by
the key (lowercased name, ip).  The completion order is the explicit
`arrival` argument; theorems quantify it over all permutations of
`devices`.  Python list.sort is a stable sort, modelled by the stable
`List.mergeSort`. -/
def bulk_status (probe : String → Except Unit Bool)
    (devices arrival : List Device) : RoundTrace :=
  let collected := arrival.map (mkResult probe)
  { poolCreated := true
    max_workers := pool_width devices
    probeCalls := devices.map Device.ip
    collected := collected
    report := collected.mergeSort keyLE }

/-- Body of a POST /api/devices request: the optional name and ip fields of
the JSON payload (absent field modelled as `none`). -/
structure AddRequest where
  name : Option String
  ip : Option String
deriving DecidableEq, Repr

/-- Response of `add_device`: HTTP 400, HTTP 409, or HTTP 201 with the new
device. -/
inductive AddOutcome where
  | validationError
  | duplicateError
  | created (d : Device)
deriving DecidableEq, Repr

/-- Observable trace of one `add_device` call: the response, the stored
collection afterwards, and whether `save_devices` was called. -/
structure AddTrace where
  outcome : AddOutcome
  store : List Device
  saveCalled : Bool
deriving DecidableEq, Repr

/-- The handler `add_device` (lines 94 to 110 of src/app.py).  Name and ip
are read with `data.get(...) or ""` and stripped; empty name or ip gives
HTTP 400; an existing device with the same ip gives HTTP 409; otherwise a
fresh device (id from uuid4, modelled as the `newId` argument) is appended
and the whole collection persisted. -/
def add_device (newId : String) (req : AddRequest) (devices : List Device) :
    AddTrace :=
  let name := pyStrip (req.name.getD "")
  let ip := pyStrip (req.ip.getD "")
  if name = "" ∨ ip = "" then
    { outcome := .validationError, store := devices, saveCalled := false }
  else if devices.any (fun d => d.ip == ip) then
    { outcome := .duplicateError, store := devices, saveCalled := false }
  else
    { outcome := .created { id := newId, name := name, ip := ip }
      store := devices ++ [{ id := newId, name := name, ip := ip }]
      saveCalled := true }

/-- Observable trace of one `delete_device` call: the boolean response
(HTTP 200 with ok true, or HTTP 404), the stored collection afterwards, and
whether `save_devices` was called. -/
structure DeleteTrace where
  ok : Bool
  store : List Device
  saveCalled : Bool
deriving DecidableEq, Repr

/-- The handler `delete_device` (lines 112 to 119 of src/app.py): filter out
every record whose id equals the path id; if nothing was removed answer
HTTP 404 without writing, otherwise persist the filtered list. -/
def delete_device (dev_id : String) (devices : List Device) : DeleteTrace :=
  let new_list := devices.filter (fun d => d.id != dev_id)
  if new_list.length = devices.length then
    { ok := false, store := devices, saveCalled := false }
  else
    { ok := true, store := new_list, saveCalled := true }

/-- State of the bounded worker pool during a round: tasks not yet started,
tasks currently executing, tasks finished. -/
structure PoolState where
  pending : Nat
  active : Nat
  done : Nat
deriving DecidableEq, Repr

/-- Transitions of a ThreadPoolExecutor with `W` workers, following its
documented semantics: a pending task may start only while fewer than `W`
tasks are active; an active task may finish at any time. -/
inductive PoolStep (W : Nat) : PoolState → PoolState → Prop where
  | start (s : PoolState) (ha : s.active < W) (hp : 0 < s.pending) :
      PoolStep W s { pending := s.pending - 1, active := s.active + 1, done := s.done }
  | finish (s : PoolState) (ha : 0 < s.active) :
      PoolStep W s { pending := s.pending, active := s.active - 1, done := s.done + 1 }

/-- Pool states reachable during a round that submits `n` tasks to a pool of
width `W`. -/
inductive PoolReachable (W n : Nat) : PoolState → Prop where
  | init : PoolReachable W n { pending := n, active := 0, done := 0 }
  | step {s t : PoolState} :
      PoolReachable W n s → PoolStep W s t → PoolReachable W n t

/-- Probe outcome used in concrete witnesses: every address answers online. -/
def probeAllOk : String → Except Unit Bool := fun _ => .ok true

/-- Probe outcome used in concrete witnesses: every probe raises. -/
def probeFail : String → Except Unit Bool := fun _ => .error ()

/-- Subprocess model used in concrete witnesses: every invocation raises. -/
def runRaise : List String → ExecOutcome := fun _ => .raised

/-- Sort key of a device as it will appear in the report: lowercased name
paired with the ip. -/
def devKey (d : Device) : List Char × List Char :=
  (d.name.data.map Char.toLower, d.ip.data)

/-- Concrete device used in witnesses. -/
def devGoogle : Device := { id := "g1", name := "Google DNS", ip := "8.8.8.8" }

/-- Concrete device used in witnesses. -/
def devCloud : Device := { id := "c1", name := "Cloudflare DNS", ip := "1.1.1.1" }

/-- Concrete device sharing name and ip with `devTwinB` but not its id. -/
def devTwinA : Device := { id := "a", name := "x", ip := "1" }

/-- Concrete device sharing name and ip with `devTwinA` but not its id. -/
def devTwinB : Device := { id := "b", name := "x", ip := "1" }

/-- Concrete device sharing its id with `devTwinA`. -/
def devTwinA2 : Device := { id := "a", name := "y", ip := "2" }

/-- Concrete stored device whose ip collides with add requests below. -/
def devDup : Device := { id := "e1", name := "existing", ip := "1.1.1.1" }

/-- Add request with an empty name and a colliding ip. -/
def reqDupEmptyName : AddRequest := { name := some "", ip := some "1.1.1.1" }

/-- Add request with a valid name and a colliding ip. -/
def reqX : AddRequest := { name := some "X", ip := some "1.1.1.1" }

/-- Add request whose name and ip carry surrounding whitespace. -/
def reqPC : AddRequest := { name := some "  pc  ", ip := some " 10.0.0.1 " }

/-- Device produced by a successful add of `reqPC` under id n1. -/
def devCreated : Device := { id := "n1", name := "pc", ip := "10.0.0.1" }

/-! ### Order lemmas for the lexicographic comparisons -/

theorem charsLe_cons_iff {a b : Char} {as bs : List Char} :
    charsLe (a :: as) (b :: bs) = true ↔ a < b ∨ (a = b ∧ charsLe as bs = true) := by
  simp only [charsLe]
  rcases lt_trichotomy a b with h | h | h
  · simp [h]
  · subst h
    simp [lt_irrefl]
  · simp [lt_asymm h, h, ne_of_gt h]

theorem charsLt_cons_iff {a b : Char} {as bs : List Char} :
    charsLt (a :: as) (b :: bs) = true ↔ a < b ∨ (a = b ∧ charsLt as bs = true) := by
  simp only [charsLt]
  rcases lt_trichotomy a b with h | h | h
  · simp [h]
  · subst h
    simp [lt_irrefl]
  · simp [lt_asymm h, h, ne_of_gt h]

theorem charsLe_trans : ∀ (a b c : List Char),
    charsLe a b = true → charsLe b c = true → charsLe a c = true
  | [], _, _, _, _ => rfl
  | _ :: _, [], _, h, _ => by simp [charsLe] at h
  | _ :: _, _ :: _, [], _, h => by simp [charsLe] at h
  | a :: as, b :: bs, c :: cs, h1, h2 => by
    rw [charsLe_cons_iff] at h1 h2 ⊢
    rcases h1 with h1 | ⟨rfl, h1⟩
    · rcases h2 with h2 | ⟨rfl, h2⟩
      · exact Or.inl (lt_trans h1 h2)
      · exact Or.inl h1
    · rcases h2 with h2 | ⟨rfl, h2⟩
      · exact Or.inl h2
      · exact Or.inr ⟨rfl, charsLe_trans as bs cs h1 h2⟩

theorem charsLt_trans : ∀ (a b c : List Char),
    charsLt a b = true → charsLt b c = true → charsLt a c = true
  | [], [], _, h, _ => by simp [charsLt] at h
  | [], _ :: _, [], _, h => by simp [charsLt] at h
  | [], _ :: _, _ :: _, _, _ => rfl
  | _ :: _, [], _, h, _ => by simp [charsLt] at h
  | _ :: _, _ :: _, [], _, h => by simp [charsLt] at h
  | a :: as, b :: bs, c :: cs, h1, h2 => by
    rw [charsLt_cons_iff] at h1 h2 ⊢
    rcases h1 with h1 | ⟨rfl, h1⟩
    · rcases h2 with h2 | ⟨rfl, h2⟩
      · exact Or.inl (lt_trans h1 h2)
      · exact Or.inl h1
    · rcases h2 with h2 | ⟨rfl, h2⟩
      · exact Or.inl h2
      · exact Or.inr ⟨rfl, charsLt_trans as bs cs h1 h2⟩

theorem charsLe_total : ∀ (a b : List Char), (charsLe a b || charsLe b a) = true
  | [], _ => by simp [charsLe]
  | _ :: _, [] => by simp [charsLe]
  | a :: as, b :: bs => by
    simp only [Bool.or_eq_true, charsLe_cons_iff]
    rcases lt_trichotomy a b with h | h | h
    · exact Or.inl (Or.inl h)
    · subst h
      rcases Bool.or_eq_true _ _ |>.mp (charsLe_total as bs) with h | h
      · exact Or.inl (Or.inr ⟨rfl, h⟩)
      · exact Or.inr (Or.inr ⟨rfl, h⟩)
    · exact Or.inr (Or.inl h)

theorem charsLe_antisymm : ∀ (a b : List Char),
    charsLe a b = true → charsLe b a = true → a = b
  | [], [], _, _ => rfl
  | [], _ :: _, _, h => by simp [charsLe] at h
  | _ :: _, [], h, _ => by simp [charsLe] at h
  | a :: as, b :: bs, h1, h2 => by
    rw [charsLe_cons_iff] at h1 h2
    rcases h1 with h1 | ⟨rfl, h1⟩
    · rcases h2 with h2 | ⟨e, _⟩
      · exact absurd h1 (lt_asymm h2)
      · exact absurd (e ▸ h1) (lt_irrefl _)
    · rcases h2 with h2 | ⟨_, h2⟩
      · exact absurd h2 (lt_irrefl _)
      · rw [charsLe_antisymm as bs h1 h2]

theorem charsLt_of_le_of_ne : ∀ (a b : List Char),
    charsLe a b = true → a ≠ b → charsLt a b = true
  | [], [], _, hne => absurd rfl hne
  | [], _ :: _, _, _ => rfl
  | _ :: _, [], h, _ => by simp [charsLe] at h
  | a :: as, b :: bs, h1, hne => by
    rw [charsLe_cons_iff] at h1
    rw [charsLt_cons_iff]
    rcases h1 with h1 | ⟨rfl, h1⟩
    · exact Or.inl h1
    · refine Or.inr ⟨rfl, charsLt_of_le_of_ne as bs h1 ?_⟩
      intro h
      exact hne (by rw [h])

theorem charsLt_asymm : ∀ (a b : List Char),
    charsLt a b = true → charsLt b a = true → False
  | [], [], h, _ => by simp [charsLt] at h
  | [], _ :: _, _, h => by simp [charsLt] at h
  | _ :: _, [], h, _ => by simp [charsLt] at h
  | a :: as, b :: bs, h1, h2 => by
    rw [charsLt_cons_iff] at h1 h2
    rcases h1 with h1 | ⟨e1, h1⟩
    · rcases h2 with h2 | ⟨e2, _⟩
      · exact lt_asymm h1 h2
      · exact absurd (e2 ▸ h1) (lt_irrefl _)
    · rcases h2 with h2 | ⟨_, h2⟩
      · exact absurd (e1 ▸ h2) (lt_irrefl _)
      · exact charsLt_asymm as bs h1 h2

/-! ### Lemmas about the report order `keyLE` -/

theorem keyLE_eq_true_iff {a b : ProbeResult} : keyLE a b = true ↔ keyLEP a b := by
  simp [keyLE, keyLEP]

theorem keyLE_trans {a b c : ProbeResult}
    (h1 : keyLE a b = true) (h2 : keyLE b c = true) : keyLE a c = true := by
  rw [keyLE_eq_true_iff] at h1 h2 ⊢
  rcases h1 with h1 | ⟨e1, h1⟩
  · rcases h2 with h2 | ⟨e2, h2⟩
    · exact Or.inl (charsLt_trans _ _ _ h1 h2)
    · exact Or.inl (e2 ▸ h1)
  · rcases h2 with h2 | ⟨e2, h2⟩
    · exact Or.inl (e1 ▸ h2)
    · exact Or.inr ⟨e1.trans e2, charsLe_trans _ _ _ h1 h2⟩

theorem keyLE_total (a b : ProbeResult) : (keyLE a b || keyLE b a) = true := by
  simp only [Bool.or_eq_true, keyLE_eq_true_iff, keyLEP]
  by_cases he : (sortKey a).1 = (sortKey b).1
  · rcases Bool.or_eq_true _ _ |>.mp (charsLe_total (sortKey a).2 (sortKey b).2) with h | h
    · exact Or.inl (Or.inr ⟨he, h⟩)
    · exact Or.inr (Or.inr ⟨he.symm, h⟩)
  · rcases Bool.or_eq_true _ _ |>.mp (charsLe_total (sortKey a).1 (sortKey b).1) with h | h
    · exact Or.inl (Or.inl (charsLt_of_le_of_ne _ _ h he))
    · exact Or.inr (Or.inl (charsLt_of_le_of_ne _ _ h (Ne.symm he)))

theorem keyLT_of_keyLE_of_ne {a b : ProbeResult}
    (h : keyLE a b = true) (hne : sortKey a ≠ sortKey b) : keyLT a b := by
  rw [keyLE_eq_true_iff] at h
  rcases h with h | ⟨e, h⟩
  · exact Or.inl h
  · refine Or.inr ⟨e, charsLt_of_le_of_ne _ _ h ?_⟩
    intro h2
    exact hne (Prod.ext e h2)

theorem keyLT_asymm {a b : ProbeResult} (h1 : keyLT a b) (h2 : keyLT b a) : False := by
  rcases h1 with h1 | ⟨e1, h1⟩
  · rcases h2 with h2 | ⟨e2, _⟩
    · exact charsLt_asymm _ _ h1 h2
    · exact absurd (e2 ▸ h1) (fun h => charsLt_asymm _ _ h h)
  · rcases h2 with h2 | ⟨_, h2⟩
    · exact absurd (e1 ▸ h2) (fun h => charsLt_asymm _ _ h h)
    · exact charsLt_asymm _ _ h1 h2

/-! ### Structural lemmas about `bulk_status` -/

theorem bulk_status_report_eq (probe : String → Except Unit Bool)
    (devices arrival : List Device) :
    (bulk_status probe devices arrival).report
      = (arrival.map (mkResult probe)).mergeSort keyLE := rfl

theorem bulk_status_report_perm_collected (probe : String → Except Unit Bool)
    (devices arrival : List Device) :
    (bulk_status probe devices arrival).report.Perm
      (bulk_status probe devices arrival).collected :=
  List.mergeSort_perm _ _

theorem bulk_status_report_perm (probe : String → Except Unit Bool)
    {devices arrival : List Device} (h : arrival.Perm devices) :
    (bulk_status probe devices arrival).report.Perm
      (devices.map (mkResult probe)) :=
  (List.mergeSort_perm _ _).trans (h.map _)

theorem bulk_status_report_sorted (probe : String → Except Unit Bool)
    (devices arrival : List Device) :
    List.Pairwise (fun a b => keyLE a b = true)
      (bulk_status probe devices arrival).report :=
  @List.sorted_mergeSort ProbeResult keyLE
    (fun _ _ _ h1 h2 => keyLE_trans h1 h2) keyLE_total _

/-! ### Claim theorems -/

/-- C1: for every non-empty input device list and every completion order (a
permutation of the input), `bulk_status` returns exactly one ProbeResult per
input device, matched by id: the multiset of ids in the report equals the
multiset of ids in the input, the report has one row per device, and each row
carries the name and ip of a matching input device unchanged together with
its boolean online flag. -/
theorem c1_one_result_per_device (probe : String → Except Unit Bool)
    {devices arrival : List Device} (hperm : arrival.Perm devices)
    (hne : devices ≠ []) :
    ((bulk_status probe devices arrival).report.map ProbeResult.id).Perm
        (devices.map Device.id)
      ∧ (bulk_status probe devices arrival).report.length = devices.length
      ∧ ∀ r ∈ (bulk_status probe devices arrival).report,
          ∃ d ∈ devices, r.id = d.id ∧ r.name = d.name ∧ r.ip = d.ip
            ∧ r.online = taskOnline probe d := by
  have hrep := bulk_status_report_perm probe hperm
  refine ⟨?_, ?_, ?_⟩
  · have h := hrep.map ProbeResult.id
    rw [List.map_map] at h
    exact h
  · exact hrep.length_eq.trans (by simp)
  · intro r hr
    have hmem := hrep.mem_iff.mp hr
    rcases List.mem_map.mp hmem with ⟨d, hd, rfl⟩
    exact ⟨d, hd, rfl, rfl, rfl, rfl⟩

/-- Witness for C1 at a concrete non-empty device list. -/
theorem c1_one_result_per_device_witness :
    ((bulk_status probeAllOk [devGoogle] [devGoogle]).report.map ProbeResult.id).Perm
        ([devGoogle].map Device.id)
      ∧ (bulk_status probeAllOk [devGoogle] [devGoogle]).report.length
          = ([devGoogle] : List Device).length
      ∧ ∀ r ∈ (bulk_status probeAllOk [devGoogle] [devGoogle]).report,
          ∃ d ∈ [devGoogle], r.id = d.id ∧ r.name = d.name ∧ r.ip = d.ip
            ∧ r.online = taskOnline probeAllOk d :=
  c1_one_result_per_device probeAllOk (List.Perm.refl _) (List.cons_ne_nil _ _)

/-- C2: for every input device list and completion order, the report of
`bulk_status` is exactly the collected results sorted once at the end by the
key (lowercased name, ip): it is sorted ascending in that order and is a
permutation of the results collected during the round. -/
theorem c2_report_sorted_once (probe : String → Except Unit Bool)
    (devices arrival : List Device) :
    (bulk_status probe devices arrival).report
        = (bulk_status probe devices arrival).collected.mergeSort keyLE
      ∧ List.Sorted keyLEP (bulk_status probe devices arrival).report
      ∧ (bulk_status probe devices arrival).report.Perm
          (bulk_status probe devices arrival).collected := by
  refine ⟨rfl, ?_, bulk_status_report_perm_collected probe devices arrival⟩
  exact (bulk_status_report_sorted probe devices arrival).imp
    (fun h => keyLE_eq_true_iff.mp h)

/-- C4: the worker pool of `bulk_status` is created with width
W = min(64, max(4, number of devices)); in every reachable pool state the
number of concurrently active probes is at most W; W never exceeds 64, is 64
for 200 devices, and is 4 when fewer than 4 devices are given. -/
theorem c4_bounded_concurrency {devices : List Device} {s : PoolState}
    (h : PoolReachable (pool_width devices) devices.length s) :
    s.active ≤ pool_width devices
      ∧ pool_width devices = min 64 (max 4 devices.length)
      ∧ pool_width devices ≤ 64
      ∧ (devices.length = 200 → pool_width devices = 64)
      ∧ (devices.length < 4 → pool_width devices = 4) := by
  refine ⟨?_, rfl, ?_, ?_, ?_⟩
  · induction h with
    | init => exact Nat.zero_le _
    | step hr hs ih =>
      cases hs with
      | start ha hp => exact ha
      | finish ha => exact le_trans (Nat.sub_le _ _) ih
  · exact Nat.min_le_left _ _
  · intro h2
    simp [pool_width, h2]
  · intro h2
    simp only [pool_width]
    omega

/-- Witness for C4: after starting one task from a one-device round, the
reachable pool state has one active probe, within the width bound. -/
theorem c4_bounded_concurrency_witness :
    ({ pending := 0, active := 1, done := 0 } : PoolState).active
        ≤ pool_width [devGoogle]
      ∧ pool_width [devGoogle] = min 64 (max 4 [devGoogle].length)
      ∧ pool_width [devGoogle] ≤ 64
      ∧ (([devGoogle] : List Device).length = 200 → pool_width [devGoogle] = 64)
      ∧ (([devGoogle] : List Device).length < 4 → pool_width [devGoogle] = 4) :=
  c4_bounded_concurrency
    (PoolReachable.step PoolReachable.init
      (PoolStep.start { pending := 1, active := 0, done := 0 } (by decide) (by decide)))

/-- C6: the prober never raises: a raised subprocess collapses to false and a
completed subprocess yields the return-code test, so for every outcome the
result is a boolean; a raised task in the coordinator likewise yields online
false, and the round still produces one result per device. -/
theorem c6_prober_never_raises (sysname ip : String) (timeout_ms : Nat)
    (run : List String → ExecOutcome) (probe : String → Except Unit Bool)
    {devices arrival : List Device} (hperm : arrival.Perm devices) :
    (run (ping_cmd sysname timeout_ms ip) = .raised →
        ping_host sysname ip timeout_ms run = false)
      ∧ (∀ rc : Int, run (ping_cmd sysname timeout_ms ip) = .ok rc →
          ping_host sysname ip timeout_ms run = (rc == 0))
      ∧ (∀ d : Device, probe d.ip = .error () → taskOnline probe d = false)
      ∧ (bulk_status probe devices arrival).report.length = devices.length := by
  refine ⟨?_, ?_, ?_, ?_⟩
  · intro h
    simp [ping_host, h]
  · intro rc h
    simp [ping_host, h]
  · intro d h
    simp [taskOnline, h]
  · exact (bulk_status_report_perm probe hperm).length_eq.trans (by simp)

/-- Witness for C6: with a subprocess that always raises and a probe task
that always raises, the prober returns false and a one-device round still
produces one result. -/
theorem c6_prober_never_raises_witness :
    ping_host "linux" "8.8.8.8" 1200 runRaise = false
      ∧ (bulk_status probeFail [devGoogle] [devGoogle]).report.length
          = ([devGoogle] : List Device).length :=
  ⟨(c6_prober_never_raises "linux" "8.8.8.8" 1200 runRaise probeFail
      (List.Perm.refl [devGoogle])).1 rfl,
   (c6_prober_never_raises "linux" "8.8.8.8" 1200 runRaise probeFail
      (List.Perm.refl [devGoogle])).2.2.2⟩

/-- C10: on non-Windows platforms the prober passes ping a wait of
max(1, round(timeout_ms / 1000)) whole seconds; any timeout of at most
1499 ms, the 1200 ms default included, yields a one-second wait, so
requested timeouts below 1000 ms allow the probe to wait a full second,
longer than requested. -/
theorem c10_ping_wait_seconds (sysname ip : String) (timeout_ms : Nat)
    (hw : sysname ≠ "windows") :
    ping_cmd sysname timeout_ms ip
        = ["ping", "-c", "1", "-W", toString (max 1 (pyRound1000 timeout_ms)), ip]
      ∧ (timeout_ms ≤ 1499 → pingWaitSecs timeout_ms = 1)
      ∧ pingWaitSecs 1200 = 1
      ∧ (timeout_ms < 1000 →
          pingWaitSecs timeout_ms = 1
            ∧ timeout_ms < 1000 * pingWaitSecs timeout_ms) := by
  refine ⟨?_, ?_, by decide, ?_⟩
  · simp [ping_cmd, hw, pingWaitSecs]
  · intro h
    have hx : pyRound1000 timeout_ms ≤ 1 := by
      simp only [pyRound1000]
      split
      · omega
      · split
        · omega
        · split <;> omega
    simp only [pingWaitSecs]
    omega
  · intro h
    have hx : pyRound1000 timeout_ms ≤ 1 := by
      simp only [pyRound1000]
      split
      · omega
      · split
        · omega
        · split <;> omega
    have h1 : pingWaitSecs timeout_ms = 1 := by
      simp only [pingWaitSecs]
      omega
    exact ⟨h1, by omega⟩

/-- Witness for C10 at the default timeout on a Linux platform name. -/
theorem c10_ping_wait_seconds_witness :
    ping_cmd "linux" 1200 "8.8.8.8"
        = ["ping", "-c", "1", "-W", toString (max 1 (pyRound1000 1200)), "8.8.8.8"]
      ∧ ((1200 : Nat) ≤ 1499 → pingWaitSecs 1200 = 1)
      ∧ pingWaitSecs 1200 = 1
      ∧ ((1200 : Nat) < 1000 →
          pingWaitSecs 1200 = 1 ∧ (1200 : Nat) < 1000 * pingWaitSecs 1200) :=
  c10_ping_wait_seconds "linux" "8.8.8.8" 1200 (by decide)

unseal List.merge List.mergeSort in
/-- C3 counterexample: two devices share the sort key (same name and ip)
but differ in id; with the same probe outcomes, two completion orders that
are both permutations of the device list produce different report
sequences, because the stable sort keeps equal-key rows in arrival order. -/
theorem c3_counterexample :
    ([devTwinB, devTwinA] : List Device).Perm [devTwinA, devTwinB]
      ∧ (bulk_status probeAllOk [devTwinA, devTwinB] [devTwinA, devTwinB]).report
          ≠ (bulk_status probeAllOk [devTwinA, devTwinB] [devTwinB, devTwinA]).report := by
  constructor
  · decide
  · decide

/-- C3 amended: when the sort keys (lowercased name, ip) of the devices are
pairwise distinct — as they are for any registry snapshot, since the
registry keeps ips unique — two runs of `bulk_status` on the same device
list with the same probe outcomes produce identical report sequences, for
every pair of completion orders. -/
theorem c3_deterministic (probe : String → Except Unit Bool)
    {devices arrival1 arrival2 : List Device}
    (h1 : arrival1.Perm devices) (h2 : arrival2.Perm devices)
    (hkeys : (devices.map devKey).Nodup) :
    (bulk_status probe devices arrival1).report
      = (bulk_status probe devices arrival2).report := by
  have p1 := bulk_status_report_perm probe h1
  have p2 := bulk_status_report_perm probe h2
  have hbase : ((devices.map (mkResult probe)).map sortKey).Nodup := by
    rw [List.map_map]
    exact hkeys
  have hk1 : ((bulk_status probe devices arrival1).report.map sortKey).Nodup :=
    ((p1.map sortKey).nodup_iff).mpr hbase
  have hk2 : ((bulk_status probe devices arrival2).report.map sortKey).Nodup :=
    ((p2.map sortKey).nodup_iff).mpr hbase
  have t1 : List.Pairwise keyLT (bulk_status probe devices arrival1).report := by
    have hne : List.Pairwise (fun a b => sortKey a ≠ sortKey b)
        (bulk_status probe devices arrival1).report := List.pairwise_map.mp hk1
    exact ((bulk_status_report_sorted probe devices arrival1).and hne).imp
      (fun h => keyLT_of_keyLE_of_ne h.1 h.2)
  have t2 : List.Pairwise keyLT (bulk_status probe devices arrival2).report := by
    have hne : List.Pairwise (fun a b => sortKey a ≠ sortKey b)
        (bulk_status probe devices arrival2).report := List.pairwise_map.mp hk2
    exact ((bulk_status_report_sorted probe devices arrival2).and hne).imp
      (fun h => keyLT_of_keyLE_of_ne h.1 h.2)
  haveI : IsAntisymm ProbeResult keyLT :=
    ⟨fun a b ha hb => (keyLT_asymm ha hb).elim⟩
  exact List.eq_of_perm_of_sorted (p1.trans p2.symm) t1 t2

/-- Witness for the amended C3 at a concrete two-device list with distinct
keys and two different completion orders. -/
theorem c3_deterministic_witness :
    (bulk_status probeAllOk [devGoogle, devCloud] [devGoogle, devCloud]).report
      = (bulk_status probeAllOk [devGoogle, devCloud] [devCloud, devGoogle]).report :=
  c3_deterministic probeAllOk (List.Perm.refl _)
    (List.Perm.swap devGoogle devCloud []) (by decide)

unseal List.merge List.mergeSort in
/-- C5 counterexample: on the empty device list the round does return an
empty report and invokes no probe, but the claim also requires that no
worker pool is created, and the code enters the ThreadPoolExecutor block
unconditionally, so the conjunction fails. -/
theorem c5_counterexample :
    ¬ ((bulk_status probeAllOk [] []).report = []
        ∧ (bulk_status probeAllOk [] []).poolCreated = false
        ∧ (bulk_status probeAllOk [] []).probeCalls = []) := by decide

/-- C5 amended: on the empty device list `bulk_status` returns an empty
report, submits no probe and collects nothing, but it still constructs the
executor, with max_workers = min(64, max(4, 0)) = 4. -/
theorem c5_empty_round (probe : String → Except Unit Bool)
    {arrival : List Device} (h : arrival.Perm ([] : List Device)) :
    (bulk_status probe [] arrival).report = []
      ∧ (bulk_status probe [] arrival).probeCalls = []
      ∧ (bulk_status probe [] arrival).collected = []
      ∧ (bulk_status probe [] arrival).poolCreated = true
      ∧ (bulk_status probe [] arrival).max_workers = 4 := by
  have he : arrival = [] := h.eq_nil
  subst he
  exact ⟨List.mergeSort_nil, rfl, rfl, rfl, rfl⟩

/-- Witness for the amended C5 at the empty round. -/
theorem c5_empty_round_witness :
    (bulk_status probeAllOk [] []).report = []
      ∧ (bulk_status probeAllOk [] []).probeCalls = []
      ∧ (bulk_status probeAllOk [] []).collected = []
      ∧ (bulk_status probeAllOk [] []).poolCreated = true
      ∧ (bulk_status probeAllOk [] []).max_workers = 4 :=
  c5_empty_round probeAllOk (List.Perm.refl [])

/-- C7 counterexample: a request whose ip collides with a stored device but
whose name is empty is rejected with the validation error (HTTP 400), not
the duplicate error (HTTP 409), although an existing device has the same ip
as the request. -/
theorem c7_counterexample :
    (∃ d ∈ [devDup], d.ip = pyStrip (reqDupEmptyName.ip.getD ""))
      ∧ (add_device "n2" reqDupEmptyName [devDup]).outcome ≠ AddOutcome.duplicateError
      ∧ (add_device "n2" reqDupEmptyName [devDup]).outcome = AddOutcome.validationError := by
  decide

/-- C7 amended: provided the stripped name and ip of the request are
non-empty, an existing device with the stripped ip makes `add_device` answer
the duplicate error (HTTP 409), leave the stored collection unchanged in
count and contents, and perform no persistence write. -/
theorem c7_duplicate_rejected (newId : String) (req : AddRequest)
    (devices : List Device)
    (hn : pyStrip (req.name.getD "") ≠ "")
    (hi : pyStrip (req.ip.getD "") ≠ "")
    (hdup : ∃ d ∈ devices, d.ip = pyStrip (req.ip.getD "")) :
    (add_device newId req devices).outcome = .duplicateError
      ∧ (add_device newId req devices).store = devices
      ∧ (add_device newId req devices).saveCalled = false := by
  have hcond : ¬ (pyStrip (req.name.getD "") = "" ∨ pyStrip (req.ip.getD "") = "") := by
    tauto
  have hany : devices.any (fun d => d.ip == pyStrip (req.ip.getD "")) = true := by
    rcases hdup with ⟨d, hd, he⟩
    exact List.any_eq_true.mpr ⟨d, hd, beq_iff_eq.mpr he⟩
  simp [add_device, hcond, hany]

/-- Witness for the amended C7 at a concrete colliding request. -/
theorem c7_duplicate_rejected_witness :
    (add_device "n3" reqX [devDup]).outcome = .duplicateError
      ∧ (add_device "n3" reqX [devDup]).store = [devDup]
      ∧ (add_device "n3" reqX [devDup]).saveCalled = false :=
  c7_duplicate_rejected "n3" reqX [devDup] (by decide) (by decide) (by decide)

/-- C8 counterexample: with two stored records carrying the same id, delete
on that id removes both, so the result does not have exactly one record
fewer than the input, contradicting removes-exactly-that-one-record. -/
theorem c8_counterexample :
    ("a" ∈ ([devTwinA, devTwinA2] : List Device).map Device.id)
      ∧ (delete_device "a" [devTwinA, devTwinA2]).store = []
      ∧ (delete_device "a" [devTwinA, devTwinA2]).store.length
          ≠ ([devTwinA, devTwinA2] : List Device).length - 1 := by
  decide

/-- Helper for C8: filtering out one present id from a collection with
pairwise distinct ids removes exactly one record. -/
theorem filter_out_id_length {dev_id : String} : ∀ (devices : List Device),
    (devices.map Device.id).Nodup → dev_id ∈ devices.map Device.id →
    (devices.filter (fun d => d.id != dev_id)).length + 1 = devices.length
  | [], _, hmem => by simp at hmem
  | d :: ds, hnd, hmem => by
    simp only [List.map_cons, List.nodup_cons] at hnd
    rcases hnd with ⟨hnotin, hnd⟩
    simp only [List.map_cons, List.mem_cons] at hmem
    by_cases hid : d.id = dev_id
    · subst hid
      have hkeep : ds.filter (fun x => x.id != d.id) = ds := by
        refine List.filter_eq_self.mpr ?_
        intro x hx
        simp only [bne_iff_ne, ne_eq]
        intro he
        exact hnotin (he ▸ List.mem_map.mpr ⟨x, hx, rfl⟩)
      simp [List.filter_cons, hkeep]
    · have hmem2 : dev_id ∈ ds.map Device.id := by
        rcases hmem with he | hm
        · exact absurd he.symm hid
        · exact hm
      have ih := filter_out_id_length ds hnd hmem2
      have hd : (d.id != dev_id) = true := by
        simpa using hid
      simp only [List.filter_cons, hd, if_pos, List.length_cons]
      omega

/-- C8 amended: delete on an absent id answers not-found, writes nothing and
leaves the collection unchanged; delete on a present id answers ok, persists
the collection filtered of every record bearing that id, keeping every other
record, and when the stored ids are pairwise distinct — the registry
invariant — it removes exactly that one record. -/
theorem c8_remove (dev_id : String) (devices : List Device) :
    (dev_id ∉ devices.map Device.id →
        delete_device dev_id devices
          = { ok := false, store := devices, saveCalled := false })
      ∧ (dev_id ∈ devices.map Device.id →
          (delete_device dev_id devices).ok = true
            ∧ (delete_device dev_id devices).store
                = devices.filter (fun d => d.id != dev_id)
            ∧ (delete_device dev_id devices).saveCalled = true
            ∧ ∀ d ∈ devices, d.id ≠ dev_id → d ∈ (delete_device dev_id devices).store)
      ∧ ((devices.map Device.id).Nodup → dev_id ∈ devices.map Device.id →
          (delete_device dev_id devices).store.length + 1 = devices.length) := by
  refine ⟨?_, ?_, ?_⟩
  · intro h
    have hkeep : devices.filter (fun d => d.id != dev_id) = devices := by
      refine List.filter_eq_self.mpr ?_
      intro x hx
      simp only [bne_iff_ne, ne_eq]
      intro he
      exact h (he ▸ List.mem_map.mpr ⟨x, hx, rfl⟩)
    simp [delete_device, hkeep]
  · intro h
    rcases List.mem_map.mp h with ⟨d, hd, he⟩
    have hlt : (devices.filter (fun d => d.id != dev_id)).length < devices.length := by
      refine List.length_filter_lt_length_iff_exists.mpr ⟨d, hd, ?_⟩
      simp [he]
    have hne : ¬ ((devices.filter (fun d => d.id != dev_id)).length = devices.length) :=
      Nat.ne_of_lt hlt
    refine ⟨?_, ?_, ?_, ?_⟩
    · simp [delete_device, hne]
    · simp [delete_device, hne]
    · simp [delete_device, hne]
    · intro x hx hxid
      simp only [delete_device, hne, if_neg]
      exact List.mem_filter.mpr ⟨hx, by simpa using hxid⟩
  · intro hnd h
    rcases List.mem_map.mp h with ⟨d, hd, he⟩
    have hlt : (devices.filter (fun d => d.id != dev_id)).length < devices.length := by
      refine List.length_filter_lt_length_iff_exists.mpr ⟨d, hd, ?_⟩
      simp [he]
    have hne : ¬ ((devices.filter (fun d => d.id != dev_id)).length = devices.length) :=
      Nat.ne_of_lt hlt
    have hlen := filter_out_id_length devices hnd h
    simp only [delete_device, hne, if_neg]
    exact hlen

/-- Witness for the amended C8: deleting a present id from a two-device
collection with distinct ids removes exactly that record and persists. -/
theorem c8_remove_witness :
    (delete_device "g1" [devGoogle, devCloud]).ok = true
      ∧ (delete_device "g1" [devGoogle, devCloud]).store
          = [devGoogle, devCloud].filter (fun d => d.id != "g1")
      ∧ (delete_device "g1" [devGoogle, devCloud]).saveCalled = true
      ∧ (delete_device "g1" [devGoogle, devCloud]).store.length + 1
          = ([devGoogle, devCloud] : List Device).length := by
  have h2 := (c8_remove "g1" [devGoogle, devCloud]).2.1 (by decide)
  have h3 := (c8_remove "g1" [devGoogle, devCloud]).2.2 (by decide) (by decide)
  exact ⟨h2.1, h2.2.1, h2.2.2.1, h3⟩

/-- C9: whenever `add_device` succeeds, the created device carries the
request name and ip with surrounding whitespace stripped, the generated id,
and is appended to the persisted collection. -/
theorem c9_add_strips (newId : String) (req : AddRequest) (devices : List Device)
    (d : Device) (h : (add_device newId req devices).outcome = .created d) :
    d.id = newId ∧ d.name = pyStrip (req.name.getD "")
      ∧ d.ip = pyStrip (req.ip.getD "")
      ∧ (add_device newId req devices).store = devices ++ [d]
      ∧ (add_device newId req devices).saveCalled = true := by
  by_cases h1 : pyStrip (req.name.getD "") = "" ∨ pyStrip (req.ip.getD "") = ""
  · simp [add_device, h1] at h
  · by_cases h2 : devices.any (fun x => x.ip == pyStrip (req.ip.getD "")) = true
    · simp [add_device, h1, h2] at h
    · simp [add_device, h1, h2, AddOutcome.created.injEq] at h ⊢
      subst h
      exact ⟨rfl, rfl, rfl, rfl⟩

/-- Witness for C9 at a request with whitespace around name and ip. -/
theorem c9_add_strips_witness :
    devCreated.id = "n1" ∧ devCreated.name = pyStrip (reqPC.name.getD "")
      ∧ devCreated.ip = pyStrip (reqPC.ip.getD "")
      ∧ (add_device "n1" reqPC []).store = [] ++ [devCreated]
      ∧ (add_device "n1" reqPC []).saveCalled = true :=
  c9_add_strips "n1" reqPC [] devCreated (by decide)
